import Mathlib

/-!
Shallow embedding of `src/ai/flows/analyze-loan-document.ts` from the
BorrowEasy repository.

The module defines two zod schemas (`AnalyzeLoanDocumentInputSchema` with a
single `pdfTextContent` string field carrying `.min(100)`, and
`AnalyzeLoanDocumentOutputSchema`, a flat record of boolean / string fields
plus a `detailed_analysis` array), a Handlebars prompt template with one raw
substitution slot for `pdfTextContent`, and a Genkit flow
`analyzeLoanDocumentFlow` wrapped by the exported `analyzeLoanDocument`
function.

The flow body is a try/catch around one invocation of the prompt: a null
output throws `AI analysis failed to generate a response.` inside the try
block, and the catch rethrows every error as
`Failed to analyze loan document: <message or fallback>` where the fallback
`Unknown AI Error` replaces an absent or empty (JavaScript-falsy) message.
Genkit validates the flow input against the input schema at the flow
boundary, before the flow body runs, so a too-short document is rejected
with a schema validation error and the prompt is never invoked.

The external model dependency (the prompt invocation) is modelled as an
explicit `ModelBehavior` argument: it either succeeds with an optional
output (the `output` destructured from the prompt response, which may be
null) or throws with an optional message. The embedding also counts how
often the dependency is invoked, to state call-count properties.
-/

namespace BorrowEasy

/-- `AnalyzeLoanDocumentInputSchema`: object with one field
`pdfTextContent : string` carrying a `.min(100)` length constraint. -/
structure AnalyzeLoanDocumentInput where
  pdfTextContent : String
deriving Repr, DecidableEq

/-- One element of the `detailed_analysis` array of the output schema:
`flag_key : string`, `finding : string`, `is_red_flag : boolean optional`. -/
structure DetailedAnalysisEntry where
  flag_key : String
  finding : String
  is_red_flag : Option Bool
deriving Repr, DecidableEq

/-- `AnalyzeLoanDocumentOutputSchema`: the flat record of typed fields the
model response must conform to. Optional (`.optional()`) zod fields are
`Option` valued. -/
structure AnalyzeLoanDocumentOutput where
  use_of_urgent_language : Bool
  emotional_appeals : Bool
  hidden_conditions_detected : Bool
  complex_language_used : Bool
  aggressive_marketing_detected : Bool
  loan_app_authenticity_verified : Option Bool
  phishing_indicators_present : Bool
  loan_disbursement_method : Option String
  repayment_method : Option String
  suspicious_permissions_requested : Option Bool
  disclosure_of_total_cost : Bool
  regulatory_registration_status : Option Bool
  consumer_rights_info_provided : Bool
  grace_period_provided : Bool
  early_repayment_penalty_present : Bool
  rollover_clauses_detected : Bool
  dynamic_interest_rate_clause : Bool
  user_felt_pressured_to_accept : Option Bool
  user_understood_terms_before_accepting : Option Bool
  overall_summary : String
  detailed_analysis : List DetailedAnalysisEntry
deriving Repr, DecidableEq

/-- Behaviour of the external model dependency (one invocation of the
`prompt` capability): it either returns, with a possibly-null `output`
field, or throws an error whose `message` property may be absent. An empty
string models a present-but-empty message. -/
inductive ModelBehavior where
  | success (output : Option AnalyzeLoanDocumentOutput) : ModelBehavior
  | failure (message : Option String) : ModelBehavior
deriving Repr, DecidableEq

/-- Outcome of a call to `analyzeLoanDocument`: the returned output, a
schema validation error raised at the Genkit flow boundary, or an `Error`
thrown by the flow body with the given message. -/
inductive FlowOutcome where
  | ok (out : AnalyzeLoanDocumentOutput) : FlowOutcome
  | validationError : FlowOutcome
  | analysisError (msg : String) : FlowOutcome
deriving Repr, DecidableEq

/-- JavaScript `a || b` on an optional string `a`: an absent or empty
(falsy) message falls back to the default. -/
def jsOrElse (m : Option String) (d : String) : String :=
  match m with
  | none => d
  | some s => if s = "" then d else s

/-- The zod check `z.string().min(100)` on `pdfTextContent`: string length
at least 100. -/
def validateInput (input : AnalyzeLoanDocumentInput) : Bool :=
  100 ≤ input.pdfTextContent.length

/-- Message of the error thrown when the prompt returns a null output:
`AI analysis failed to generate a response.` (line 102 of the source). -/
def noResponseMsg : String := "AI analysis failed to generate a response."

/-- Fixed prefix of every error rethrown by the catch block (line 112 of
the source). -/
def wrapPrefix : String := "Failed to analyze loan document: "

/-- The try block of `analyzeLoanDocumentFlow` (lines 97-108): invoke the
prompt; rethrow its error; if the destructured `output` is null, throw
`noResponseMsg`; otherwise return `output` unchanged. -/
def tryBody (model : ModelBehavior) :
    Except (Option String) AnalyzeLoanDocumentOutput :=
  match model with
  | .failure m => .error m
  | .success none => .error (some noResponseMsg)
  | .success (some out) => .ok out

/-- `analyzeLoanDocumentFlow` (lines 85-115): Genkit validates the input
against `AnalyzeLoanDocumentInputSchema` at the flow boundary; when it
passes, the flow body runs the try block once and the catch block wraps any
thrown error as `wrapPrefix ++ (error.message || fallback)`. The second
component counts invocations of the external model dependency. -/
def analyzeLoanDocumentFlow (input : AnalyzeLoanDocumentInput)
    (model : ModelBehavior) : FlowOutcome × Nat :=
  if validateInput input then
    match tryBody model with
    | .ok out => (.ok out, 1)
    | .error m => (.analysisError (wrapPrefix ++ jsOrElse m "Unknown AI Error"), 1)
  else
    (.validationError, 0)

/-- The exported wrapper `analyzeLoanDocument` (lines 54-57): logs the
input length and delegates to the flow. -/
def analyzeLoanDocument (input : AnalyzeLoanDocumentInput)
    (model : ModelBehavior) : FlowOutcome × Nat :=
  analyzeLoanDocumentFlow input model

/-- `--- START DOCUMENT TEXT ---` marker of the prompt template. -/
def startMarker : String := "--- START DOCUMENT TEXT ---"

/-- `--- END DOCUMENT TEXT ---` marker of the prompt template. -/
def endMarker : String := "--- END DOCUMENT TEXT ---"

/-- Text of the prompt template before the start marker (lines 67-69 of
the source). -/
def promptIntro : String :=
  "You are an expert loan contract analyzer. Your task is to meticulously review the provided loan document text content and identify potential red flags, manipulative tactics, and unclear terms based on the specific criteria listed in the output schema.\n\nAnalyze the following loan document text:\n"

/-- Text of the prompt template after the end marker (lines 74-82 of the
source); `\x27` is the apostrophe character. -/
def promptInstructions : String :=
  "\n\nCarefully evaluate the text against each field in the output schema. For each boolean field, determine if the condition is met based *only* on the provided text. If the text doesn\x27t provide enough information for a boolean field (especially optional ones like \x27regulatory_registration_status\x27 or \x27loan_app_authenticity_verified\x27), determine the most likely value or default to false/null if inference is not possible. For text fields like \x27loan_disbursement_method\x27, extract the relevant information if present.\n\nFor the \x27detailed_analysis\x27 array:\n- For each check (corresponding to the keys in the output schema), provide a brief \x27finding\x27 explaining the reasoning or quoting relevant text snippets.\n- Indicate if the finding is generally considered a \x27is_red_flag\x27 (true if it\x27s a potential negative for the borrower, false or omit otherwise).\n\nFor the \x27overall_summary\x27, synthesize your findings into a concise paragraph highlighting the most critical red flags (e.g., hidden fees, complex language, pressure tactics) or positive aspects (e.g., clear terms, consumer rights mentioned). Focus on actionable insights for the user.\n\nProvide your analysis strictly in the requested JSON format matching the output schema."

/-- Handlebars rendering of the prompt template (lines 67-82): the raw
triple-stache slot substitutes `pdfTextContent` verbatim between the
newline after the start marker and the newline before the end marker. -/
def renderPrompt (pdfTextContent : String) : String :=
  promptIntro ++ startMarker ++ "\n" ++ pdfTextContent ++ "\n" ++ endMarker
    ++ promptInstructions

/-- A concrete document text of exactly 100 characters, for witnesses. -/
def sampleDoc : String :=
  String.mk (List.replicate 100 (Char.ofNat 97))

/-- A concrete well-formed output record, for witnesses. -/
def sampleOutput : AnalyzeLoanDocumentOutput where
  use_of_urgent_language := true
  emotional_appeals := false
  hidden_conditions_detected := false
  complex_language_used := false
  aggressive_marketing_detected := false
  loan_app_authenticity_verified := none
  phishing_indicators_present := false
  loan_disbursement_method := some "Bank Transfer"
  repayment_method := none
  suspicious_permissions_requested := none
  disclosure_of_total_cost := true
  regulatory_registration_status := some true
  consumer_rights_info_provided := true
  grace_period_provided := false
  early_repayment_penalty_present := false
  rollover_clauses_detected := false
  dynamic_interest_rate_clause := false
  user_felt_pressured_to_accept := some true
  user_understood_terms_before_accepting := none
  overall_summary := "The document uses urgency language."
  detailed_analysis :=
    [{ flag_key := "use_of_urgent_language",
       finding := "Detected phrase: limited time offer",
       is_red_flag := some true }]

/-- C1: an input whose document text is shorter than 100 characters is
rejected by schema validation and the external model dependency is never
invoked. -/
theorem short_input_rejected_without_model_call
    (input : AnalyzeLoanDocumentInput) (model : ModelBehavior)
    (h : input.pdfTextContent.length < 100) :
    analyzeLoanDocument input model = (FlowOutcome.validationError, 0) := by
  have hv : validateInput input = false := by
    simp only [validateInput, decide_eq_false_iff_not]
    omega
  simp [analyzeLoanDocument, analyzeLoanDocumentFlow, hv]

/-- Witness for C1 at the concrete input `"short"`. -/
theorem short_input_rejected_without_model_call_witness :
    ({ pdfTextContent := "short" } : AnalyzeLoanDocumentInput).pdfTextContent.length < 100 ∧
      analyzeLoanDocument { pdfTextContent := "short" } (.success none) =
        (FlowOutcome.validationError, 0) :=
  ⟨by decide,
   short_input_rejected_without_model_call { pdfTextContent := "short" }
     (.success none) (by decide)⟩

/-- Helper: when validation passes, the flow reduces to the try/catch over
one dependency invocation. -/
theorem flow_valid_eq (input : AnalyzeLoanDocumentInput) (model : ModelBehavior)
    (hv : validateInput input = true) :
    analyzeLoanDocumentFlow input model =
      match tryBody model with
      | .ok out => (.ok out, 1)
      | .error m => (.analysisError (wrapPrefix ++ jsOrElse m "Unknown AI Error"), 1) := by
  unfold analyzeLoanDocumentFlow
  rw [hv]
  simp

/-- Helper: a length-100-or-more document passes the zod `.min(100)`
check. -/
theorem validateInput_of_le (input : AnalyzeLoanDocumentInput)
    (h : 100 ≤ input.pdfTextContent.length) : validateInput input = true := by
  simp only [validateInput, decide_eq_true_eq]
  omega

/-- Helper: every `analysisError` outcome carries the catch-block
message shape `wrapPrefix ++ rest`. -/
theorem analysisError_shape (input : AnalyzeLoanDocumentInput)
    (model : ModelBehavior) (msg : String)
    (h : (analyzeLoanDocument input model).1 = FlowOutcome.analysisError msg) :
    ∃ rest, msg = wrapPrefix ++ rest := by
  unfold analyzeLoanDocument analyzeLoanDocumentFlow at h
  split at h
  · split at h
    · simp at h
    · simp only [FlowOutcome.analysisError.injEq] at h
      exact ⟨_, h.symm⟩
  · simp at h

/-- C2: for a valid input, an upstream failure with message `boom` is
rethrown as one analysis error whose message contains `boom`. -/
theorem boom_failure_wrapped (input : AnalyzeLoanDocumentInput)
    (h : 100 ≤ input.pdfTextContent.length) :
    ∃ msg, analyzeLoanDocument input (.failure (some "boom")) =
        (FlowOutcome.analysisError msg, 1) ∧
      ∃ pre post, msg = pre ++ "boom" ++ post := by
  refine ⟨wrapPrefix ++ "boom", ?_, wrapPrefix, "", ?_⟩
  · rw [analyzeLoanDocument, flow_valid_eq input _ (validateInput_of_le input h)]
    rfl
  · rw [String.append_empty]

/-- Witness for C2 at a concrete 100-character document. -/
theorem boom_failure_wrapped_witness :
    ∃ msg, analyzeLoanDocument { pdfTextContent := sampleDoc } (.failure (some "boom")) =
        (FlowOutcome.analysisError msg, 1) ∧
      ∃ pre post, msg = pre ++ "boom" ++ post :=
  boom_failure_wrapped { pdfTextContent := sampleDoc } (by decide)

/-- C3: for a valid input, a null model output raises an analysis error
with the fixed failed-generation message. -/
theorem null_output_fixed_error (input : AnalyzeLoanDocumentInput)
    (h : 100 ≤ input.pdfTextContent.length) :
    analyzeLoanDocument input (.success none) =
      (FlowOutcome.analysisError
        "Failed to analyze loan document: AI analysis failed to generate a response.", 1) := by
  rw [analyzeLoanDocument, flow_valid_eq input _ (validateInput_of_le input h)]
  rfl

/-- Witness for C3 at a concrete 100-character document. -/
theorem null_output_fixed_error_witness :
    analyzeLoanDocument { pdfTextContent := sampleDoc } (.success none) =
      (FlowOutcome.analysisError
        "Failed to analyze loan document: AI analysis failed to generate a response.", 1) :=
  null_output_fixed_error { pdfTextContent := sampleDoc } (by decide)

/-- C4: for a valid input, a non-null schema-conforming model output is
returned exactly, unchanged. -/
theorem success_identity (input : AnalyzeLoanDocumentInput)
    (out : AnalyzeLoanDocumentOutput) (h : 100 ≤ input.pdfTextContent.length) :
    analyzeLoanDocument input (.success (some out)) = (FlowOutcome.ok out, 1) := by
  rw [analyzeLoanDocument, flow_valid_eq input _ (validateInput_of_le input h)]
  rfl

/-- Witness for C4 at a concrete 100-character document and output
record. -/
theorem success_identity_witness :
    analyzeLoanDocument { pdfTextContent := sampleDoc }
        (.success (some sampleOutput)) = (FlowOutcome.ok sampleOutput, 1) :=
  success_identity { pdfTextContent := sampleDoc } sampleOutput (by decide)

/-- C5: for a valid input text, the rendered prompt contains the text
verbatim between the start and end document markers. -/
theorem rendered_prompt_contains_text (t : String) (_h : 100 ≤ t.length) :
    ∃ pre post,
      renderPrompt t =
        pre ++ (startMarker ++ "\n" ++ t ++ "\n" ++ endMarker) ++ post := by
  refine ⟨promptIntro, promptInstructions, ?_⟩
  simp only [renderPrompt, String.append_assoc]

/-- Witness for C5 at a concrete 100-character document. -/
theorem rendered_prompt_contains_text_witness :
    ∃ pre post,
      renderPrompt sampleDoc =
        pre ++ (startMarker ++ "\n" ++ sampleDoc ++ "\n" ++ endMarker) ++ post :=
  rendered_prompt_contains_text sampleDoc (by decide)

/-- C6: every entry of a successful result's `detailed_analysis` sequence
is a record of a string `flag_key`, a string `finding` and an optional
boolean `is_red_flag`, exactly the declared output-schema shape. -/
theorem detailed_analysis_entry_shape (input : AnalyzeLoanDocumentInput)
    (model : ModelBehavior) (out : AnalyzeLoanDocumentOutput) (n : Nat)
    (_h : analyzeLoanDocument input model = (FlowOutcome.ok out, n)) :
    ∀ e ∈ out.detailed_analysis,
      ∃ (k f : String) (r : Option Bool), e = ⟨k, f, r⟩ := by
  intro e _
  exact ⟨e.flag_key, e.finding, e.is_red_flag, rfl⟩

/-- Witness for C6 at a concrete successful run and its single
`detailed_analysis` entry. -/
theorem detailed_analysis_entry_shape_witness :
    ∃ (k f : String) (r : Option Bool),
      ({ flag_key := "use_of_urgent_language",
         finding := "Detected phrase: limited time offer",
         is_red_flag := some true } : DetailedAnalysisEntry) = ⟨k, f, r⟩ :=
  detailed_analysis_entry_shape { pdfTextContent := sampleDoc }
    (.success (some sampleOutput)) sampleOutput 1 (by decide)
    { flag_key := "use_of_urgent_language",
      finding := "Detected phrase: limited time offer",
      is_red_flag := some true } (by decide)

/-- C7: the external model dependency is invoked at most once per call;
every failure path is single-attempt with no retry. -/
theorem model_invoked_at_most_once (input : AnalyzeLoanDocumentInput)
    (model : ModelBehavior) :
    (analyzeLoanDocument input model).2 ≤ 1 := by
  unfold analyzeLoanDocument analyzeLoanDocumentFlow
  split
  · split <;> simp
  · simp

/-- C8: the call is stateless and deterministic in its input and the
dependency behaviour: equal inputs and equal dependency behaviours give
equal outcomes; the embedding is a pure function of exactly these two
arguments, with no other state. -/
theorem analyze_deterministic (input₁ input₂ : AnalyzeLoanDocumentInput)
    (model₁ model₂ : ModelBehavior)
    (hi : input₁ = input₂) (hm : model₁ = model₂) :
    analyzeLoanDocument input₁ model₁ = analyzeLoanDocument input₂ model₂ := by
  rw [hi, hm]

/-- Witness for C8 at a concrete repeated call. -/
theorem analyze_deterministic_witness :
    analyzeLoanDocument { pdfTextContent := sampleDoc }
        (.success (some sampleOutput)) =
      analyzeLoanDocument { pdfTextContent := sampleDoc }
        (.success (some sampleOutput)) :=
  analyze_deterministic { pdfTextContent := sampleDoc }
    { pdfTextContent := sampleDoc } (.success (some sampleOutput))
    (.success (some sampleOutput)) rfl rfl

/-- C9: an absent or empty upstream error message falls back to the exact
message `Failed to analyze loan document: Unknown AI Error`, and every
wrapped failure message starts with the fixed prefix
`Failed to analyze loan document: `. -/
theorem empty_message_fallback (input : AnalyzeLoanDocumentInput)
    (h : 100 ≤ input.pdfTextContent.length) :
    (∀ m : Option String, m = none ∨ m = some "" →
      analyzeLoanDocument input (.failure m) =
        (FlowOutcome.analysisError
          "Failed to analyze loan document: Unknown AI Error", 1)) ∧
    ∀ (model : ModelBehavior) (msg : String),
      (analyzeLoanDocument input model).1 = FlowOutcome.analysisError msg →
      ∃ rest, msg = "Failed to analyze loan document: " ++ rest := by
  refine ⟨?_, ?_⟩
  · rintro m (rfl | rfl) <;>
      (rw [analyzeLoanDocument, flow_valid_eq input _ (validateInput_of_le input h)]; rfl)
  · intro model msg hmsg
    exact analysisError_shape input model msg hmsg

/-- Witness for C9: the absent-message case at a concrete
100-character document. -/
theorem empty_message_fallback_witness :
    analyzeLoanDocument { pdfTextContent := sampleDoc } (.failure none) =
      (FlowOutcome.analysisError
        "Failed to analyze loan document: Unknown AI Error", 1) :=
  (empty_message_fallback { pdfTextContent := sampleDoc } (by decide)).1
    none (Or.inl rfl)

/-- C10: the minimum-length bound is inclusive: a document of exactly 100
characters passes validation and the model dependency is invoked. -/
theorem exact_hundred_accepted (input : AnalyzeLoanDocumentInput)
    (model : ModelBehavior) (h : input.pdfTextContent.length = 100) :
    (analyzeLoanDocument input model).1 ≠ FlowOutcome.validationError ∧
      (analyzeLoanDocument input model).2 = 1 := by
  rw [analyzeLoanDocument,
    flow_valid_eq input model (validateInput_of_le input (by omega))]
  rcases model with o | m
  · rcases o with _ | out <;> simp [tryBody]
  · simp [tryBody]

/-- Witness for C10 at a concrete document of exactly 100 characters. -/
theorem exact_hundred_accepted_witness :
    (analyzeLoanDocument { pdfTextContent := sampleDoc }
        (.success (some sampleOutput))).1 ≠ FlowOutcome.validationError ∧
      (analyzeLoanDocument { pdfTextContent := sampleDoc }
        (.success (some sampleOutput))).2 = 1 :=
  exact_hundred_accepted { pdfTextContent := sampleDoc }
    (.success (some sampleOutput)) (by decide)

end BorrowEasy
